import Mathlib

/-!
Verification of `lavis/models/blip_models/blip_caption.py` (class `BlipCaption`).

The file under verification is glue code composing three external components:
a visual encoder, a text decoder and a tokenizer.  These are modelled as
opaque function-valued fields; tensors are modelled as lists of lists;
token ids are natural numbers (tokenizer ids are nonnegative), while
decoder targets are integers so that the ignore sentinel `-100` can appear.
Python exceptions are modelled with `Except String`.
-/

namespace BlipCaptionModel

/-- Batched image tensor `samples["image"]`; outer list is the batch dim. -/
abbrev ImageT : Type := List (List Int)

/-- Output of the visual encoder; outer list is the batch dim (`size(0)`). -/
abbrev Embeds : Type := List (List Int)

/-- The `samples` record: at least an image tensor and raw caption strings. -/
structure Samples where
  image : ImageT
  text_input : List String

/-- Result of a tokenizer call: `input_ids` and `attention_mask`
(batch of token-id rows; ids produced by a tokenizer are nonnegative). -/
structure TokenizedText where
  input_ids : List (List Nat)
  attention_mask : List (List Nat)

/-- The external tokenizer built by `init_tokenizer()`, kept opaque.
`tokenizeSingle` is the call `self.tokenizer(self.prompt)` made in
`__init__`; `tokenizeBatchPadLongest` is the call made in `forward_decoder`
with `padding="longest"`, `truncation=True` and `max_length=self.max_txt_len`;
`tokenizeBatchPlain` is the plain batched call made in `generate`;
`decode` is `tokenizer.decode(·, skip_special_tokens=True)`. -/
structure Tokenizer where
  tokenizeSingle : Option String → List Nat
  tokenizeBatchPadLongest : List String → Nat → TokenizedText
  tokenizeBatchPlain : List String → TokenizedText
  decode : List Nat → String
  bos_token_id : Nat
  pad_token_id : Nat
  sep_token_id : Nat

/-- The external multimodal text decoder (`XBertLMHeadDecoder`), opaque.
`forward_loss` receives the tokenized text, the visual embeddings and the
decoder targets, and returns a pair whose second component is the decoder
output mapping.  `generate_from_encoder` receives the tokenized prompt, the
visual embeddings, separator/pad ids and the sampling parameters, and
returns the generated id sequences. -/
structure TextDecoder where
  forward_loss : TokenizedText → Embeds → List (List Int) → Int × List (String × Int)
  generate_from_encoder : TokenizedText → Embeds → Nat → Nat → Bool → Nat → Nat → Nat → Rat → Rat → List (List Nat)

/-- The model state: the fields assigned in `BlipCaption.__init__`. -/
structure BlipCaption where
  tokenizer : Tokenizer
  visual_encoder : ImageT → Embeds
  text_decoder : TextDecoder
  prompt : Option String
  prompt_length : Int
  max_txt_len : Nat

/-- `BlipCaption.__init__`: stores the injected encoder/decoder, the
tokenizer built by `init_tokenizer()` (passed in here, being external), the
prompt and `max_txt_len`, and eagerly computes
`prompt_length = len(self.tokenizer(self.prompt).input_ids) - 1`
(integer subtraction, as in Python). -/
def BlipCaption.init (tok : Tokenizer) (image_encoder : ImageT → Embeds)
    (text_decoder : TextDecoder) (prompt : Option String) (max_txt_len : Nat) :
    BlipCaption :=
  { tokenizer := tok
    visual_encoder := image_encoder
    text_decoder := text_decoder
    prompt := prompt
    prompt_length := ((tok.tokenizeSingle prompt).length : Int) - 1
    max_txt_len := max_txt_len }

/-- `BlipCaption.default_config_path`: fixed mapping plus an assertion.
The Python `assert`/`KeyError`-free lookup is modelled with `Except`. -/
def default_config_path (model_type : String) : Except String String :=
  let paths : List (String × String) :=
    [("base", "configs/models/blip_caption_base.yaml"),
     ("large", "configs/models/blip_caption_large.yaml")]
  match paths.lookup model_type with
  | some p => Except.ok p
  | none => Except.error ("Unknown model type " ++ model_type)

/-- `text.input_ids[:, 0] = self.tokenizer.bos_token_id`: overwrite the
first column of every row.  (On a tensor every row is nonempty whenever the
column exists; an empty row is left unchanged.) -/
def bosOverwrite (bos : Nat) (ids : List (List Nat)) : List (List Nat) :=
  ids.map (fun row =>
    match row with
    | [] => []
    | _ :: t => bos :: t)

/-- `masked_fill(row == pad, -100)` on one row: pad positions become the
sentinel, all other ids are carried over (as integers). -/
def maskedFillEqRow (pad : Nat) (v : Int) (row : List Nat) : List Int :=
  row.map (fun x => if x = pad then v else (x : Int))

/-- Set the first `k` entries of a row to `v` (fewer when the row is
shorter), as `row[:k] = v` does for a nonnegative `k`. -/
def fillFirst (v : Int) : Nat → List Int → List Int
  | 0, row => row
  | _ + 1, [] => []
  | k + 1, _ :: t => v :: fillFirst v k t

/-- Effective upper bound of the Python slice `[:p]` on a row of length
`n`: a negative `p` counts from the end, a nonnegative one is clamped. -/
def pySliceUpper (p : Int) (n : Nat) : Nat :=
  if p < 0 then ((n : Int) + p).toNat else min p.toNat n

/-- `forward_encoder`: forwards the image through the visual encoder. -/
def BlipCaption.forward_encoder (m : BlipCaption) (samples : Samples) : Embeds :=
  m.visual_encoder samples.image

/-- The tokenized text prepared in `forward_decoder`: tokenize the raw
captions (padding to longest, truncating at `max_txt_len`), then force the
beginning-of-sequence id into the first column. -/
def BlipCaption.decoderText (m : BlipCaption) (samples : Samples) : TokenizedText :=
  let text := m.tokenizer.tokenizeBatchPadLongest samples.text_input m.max_txt_len
  { text with input_ids := bosOverwrite m.tokenizer.bos_token_id text.input_ids }

/-- The decoder targets built in `forward_decoder`:
`decoder_targets = text.input_ids.masked_fill(text.input_ids == pad, -100)`
followed by `decoder_targets[:, : self.prompt_length] = -100`. -/
def BlipCaption.decoderTargets (m : BlipCaption) (samples : Samples) : List (List Int) :=
  let masked := (m.decoderText samples).input_ids.map
    (maskedFillEqRow m.tokenizer.pad_token_id (-100))
  masked.map (fun row => fillFirst (-100) (pySliceUpper m.prompt_length row.length) row)

/-- `{k: decoder_output[k] for k in decoder_output}`: rebuild the mapping
key by key (a Python dict has unique keys, so on such inputs this is the
identity; the `none` branch of the lookup is unreachable then). -/
def dictComp (d : List (String × Int)) : List (String × Int) :=
  d.map (fun kv =>
    (kv.1, match d.find? (fun kv2 => kv2.1 == kv.1) with
           | some kv2 => kv2.2
           | none => 0))

/-- `forward_decoder`: prepare text and targets, call the decoder's loss
entry point, and return its output fields as a plain mapping. -/
def BlipCaption.forward_decoder (m : BlipCaption) (samples : Samples)
    (image_embeds : Embeds) : List (String × Int) :=
  let text := m.decoderText samples
  let decoder_targets := m.decoderTargets samples
  let out := m.text_decoder.forward_loss text image_embeds decoder_targets
  dictComp out.2

/-- `forward`: encode, then decode for loss. -/
def BlipCaption.forward (m : BlipCaption) (samples : Samples) : List (String × Int) :=
  m.forward_decoder samples (m.forward_encoder samples)

/-- Modelled from the spec: the tokenizer interface "consumes raw strings"
(the tokenizer itself, `init_tokenizer`, is not part of the source under
verification).  A batched call whose list contains a non-string (`None`)
raises; a list of actual strings is accepted unchanged. -/
def tokenizerStrCheck : List (Option String) → Except String (List String)
  | [] => Except.ok []
  | some s :: rest => (tokenizerStrCheck rest).map (fun ss => s :: ss)
  | none :: _ => Except.error "ValueError: text input must be of type str"

/-- `len(self.prompt)`: defined for a string, a `TypeError` for `None`. -/
def pyLen : Option String → Except String Nat
  | some s => Except.ok s.data.length
  | none => Except.error "TypeError: object of type NoneType has no len()"

/-- Python string slice `s[n:]` for a nonnegative `n`: drop the first `n`
characters (code points). -/
def strDropChars (s : String) (n : Nat) : String :=
  String.mk (s.data.drop n)

/-- The tokenized prompt after `prompt.input_ids[:, 0] = bos_token_id` in
`generate` (before the final token is dropped). -/
def BlipCaption.genPromptBos (m : BlipCaption) (promptStrs : List String) :
    TokenizedText :=
  let prompt := m.tokenizer.tokenizeBatchPlain promptStrs
  { prompt with input_ids := bosOverwrite m.tokenizer.bos_token_id prompt.input_ids }

/-- The tokenized prompt handed to `generate_from_encoder`:
after the bos overwrite, `prompt.input_ids = prompt.input_ids[:, :-1]`. -/
def BlipCaption.genTokenizedPrompt (m : BlipCaption) (promptStrs : List String) :
    TokenizedText :=
  let prompt := m.genPromptBos promptStrs
  { prompt with input_ids := prompt.input_ids.map List.dropLast }

/-- `generate`: encode the image, replicate the prompt over the batch,
tokenize it (forcing bos and dropping the final token), delegate to the
decoder's generation entry point, then decode each output and strip the
leading `len(self.prompt)` characters.  The two places where Python needs
`self.prompt` to be a string (the tokenizer call on `[self.prompt] * B`
and `len(self.prompt)`) are the two fallible steps. -/
def BlipCaption.generate (m : BlipCaption) (samples : Samples)
    (use_nucleus_sampling : Bool) (num_beams : Nat)
    (max_length : Nat) (min_length : Nat)
    (top_p : Rat) (repetition_penalty : Rat) :
    Except String (List String) := do
  let encoder_out := m.forward_encoder samples
  let image_embeds := encoder_out
  let promptRep : List (Option String) := List.replicate image_embeds.length m.prompt
  let promptStrs ← tokenizerStrCheck promptRep
  let prompt := m.genTokenizedPrompt promptStrs
  let decoder_out := m.text_decoder.generate_from_encoder prompt image_embeds
    m.tokenizer.sep_token_id m.tokenizer.pad_token_id
    use_nucleus_sampling num_beams max_length min_length top_p repetition_penalty
  decoder_out.mapM (fun output => do
    let caption := m.tokenizer.decode output
    let n ← pyLen m.prompt
    pure (strDropChars caption n))

/-! State-passing forms of the four post-construction operations.  The
Python methods contain no assignment to `self`, so each returns the model
state unchanged next to its result; the frame claims are stated on these. -/

/-- `forward_encoder` with the model state threaded through. -/
def BlipCaption.forward_encoderSt (m : BlipCaption) (samples : Samples) :
    Embeds × BlipCaption :=
  (m.forward_encoder samples, m)

/-- `forward_decoder` with the model state threaded through. -/
def BlipCaption.forward_decoderSt (m : BlipCaption) (samples : Samples)
    (image_embeds : Embeds) : List (String × Int) × BlipCaption :=
  (m.forward_decoder samples image_embeds, m)

/-- `forward` with the model state threaded through. -/
def BlipCaption.forwardSt (m : BlipCaption) (samples : Samples) :
    List (String × Int) × BlipCaption :=
  (m.forward samples, m)

/-- `generate` with the model state threaded through. -/
def BlipCaption.generateSt (m : BlipCaption) (samples : Samples)
    (use_nucleus_sampling : Bool) (num_beams : Nat)
    (max_length : Nat) (min_length : Nat)
    (top_p : Rat) (repetition_penalty : Rat) :
    Except String (List String) × BlipCaption :=
  (m.generate samples use_nucleus_sampling num_beams max_length min_length
    top_p repetition_penalty, m)

/-! Helper lemmas. -/

/-- Position lookup in a batch of rows: `xss[i][j]` when in range. -/
def at2? {α : Type} (xss : List (List α)) (i j : Nat) : Option α :=
  (xss[i]?).bind (fun row => row[j]?)

theorem fillFirst_getElem? (v : Int) (k : Nat) (row : List Int) (j : Nat) :
    (fillFirst v k row)[j]? = (row[j]?).map (fun y => if j < k then v else y) := by
  induction row generalizing k j with
  | nil => cases k <;> simp [fillFirst]
  | cons a t ih =>
    cases k with
    | zero => simp [fillFirst]
    | succ k =>
      cases j with
      | zero => simp [fillFirst]
      | succ j => simpa [fillFirst, Nat.succ_lt_succ_iff] using ih k j

theorem bosOverwrite_head (bos : Nat) (ids : List (List Nat)) :
    ∀ row ∈ bosOverwrite bos ids, row ≠ [] → row.head? = some bos := by
  intro row hrow hne
  rcases List.mem_map.1 hrow with ⟨orig, _, rfl⟩
  cases orig with
  | nil => simp at hne
  | cons a t => rfl

theorem tokenizerStrCheck_replicate_some (n : Nat) (p : String) :
    tokenizerStrCheck (List.replicate n (some p)) = Except.ok (List.replicate n p) := by
  induction n with
  | zero => rfl
  | succ n ih => simp [List.replicate_succ, tokenizerStrCheck, ih, Except.map]

theorem mapM_except_loop {α β : Type} (f : α → β) (l : List α) (acc : List β) :
    List.mapM.loop (fun a => (Except.ok (f a) : Except String β)) l acc =
      Except.ok (acc.reverse ++ l.map f) := by
  induction l generalizing acc with
  | nil => simp only [List.mapM.loop, List.map_nil, List.append_nil]; rfl
  | cons a t ih => simp only [List.mapM.loop, ih, List.reverse_cons, List.append_assoc,
      List.singleton_append, List.map_cons]; rfl

theorem mapM_except_ok {α β : Type} (f : α → β) (l : List α) :
    (l.mapM (fun a => (Except.ok (f a) : Except String β))) = Except.ok (l.map f) := by
  simpa [List.mapM] using mapM_except_loop f l []

/-- With a string prompt, `generate` succeeds and returns, for each id
sequence produced by the decoder, the decoded text minus its leading
`len(prompt)` characters. -/
theorem generate_ok (m : BlipCaption) (s : Samples) (p : String)
    (uns : Bool) (nb maxl minl : Nat) (tp rp : Rat) (hp : m.prompt = some p) :
    m.generate s uns nb maxl minl tp rp =
      Except.ok ((m.text_decoder.generate_from_encoder
          (m.genTokenizedPrompt (List.replicate (m.forward_encoder s).length p))
          (m.forward_encoder s) m.tokenizer.sep_token_id m.tokenizer.pad_token_id
          uns nb maxl minl tp rp).map
        (fun output => strDropChars (m.tokenizer.decode output) p.data.length)) := by
  unfold BlipCaption.generate
  rw [hp]
  simp only [tokenizerStrCheck_replicate_some]
  exact mapM_except_ok _ _

/-- Pointwise description of `decoderTargets` for a nonnegative
`prompt_length`: a position holds `-100` exactly when the (bos-overwritten)
token there is the pad id or the column index is below `prompt_length`. -/
theorem decoderTargets_at2? (m : BlipCaption) (samples : Samples)
    (hp : 0 ≤ m.prompt_length) (i j : Nat) (x : Int)
    (hx : at2? (m.decoderTargets samples) i j = some x) :
    x = -100 ↔
      at2? (m.decoderText samples).input_ids i j = some m.tokenizer.pad_token_id ∨
        (j : Int) < m.prompt_length := by
  unfold BlipCaption.decoderTargets at hx
  unfold at2? at hx ⊢
  rcases hrow : (m.decoderText samples).input_ids[i]? with _ | row
  · rw [List.getElem?_map, List.getElem?_map, hrow] at hx
    simp at hx
  · rw [List.getElem?_map, List.getElem?_map, hrow] at hx
    simp only [Option.map_some', Option.some_bind'] at hx
    rw [fillFirst_getElem?] at hx
    unfold maskedFillEqRow at hx
    rw [List.getElem?_map] at hx
    rcases hcell : row[j]? with _ | a
    · rw [hcell] at hx; simp at hx
    · rw [hcell] at hx
      simp only [Option.map_some', Option.some.injEq] at hx
      have hj : j < row.length := (List.getElem?_eq_some.1 hcell).1
      have hupper : pySliceUpper m.prompt_length row.length
          = min m.prompt_length.toNat row.length := by
        unfold pySliceUpper; rw [if_neg (not_lt.2 hp)]
      rw [List.length_map, hupper] at hx
      simp only [Option.some_bind', hcell, Option.some.injEq]
      by_cases hju : j < min m.prompt_length.toNat row.length
      · rw [if_pos hju] at hx
        have hjp : (j : Int) < m.prompt_length := by
          have : j < m.prompt_length.toNat := lt_of_lt_of_le hju (min_le_left _ _)
          exact Int.lt_toNat.1 this
        subst hx
        simp [hjp]
      · rw [if_neg hju] at hx
        by_cases hpad : a = m.tokenizer.pad_token_id
        · rw [if_pos hpad] at hx
          subst hx
          simp [hpad]
        · rw [if_neg hpad] at hx
          subst hx
          constructor
          · intro hcontra
            exfalso
            have : (0 : Int) ≤ (a : Int) := Int.natCast_nonneg a
            omega
          · intro hor
            rcases hor with hpad2 | hjp
            · exact absurd hpad2 hpad
            · exfalso
              apply hju
              exact lt_min (Int.lt_toNat.2 hjp) hj

/-! Claim theorems. -/

/-- C1: in `forward_decoder`, a position of the decoder targets equals the
ignore sentinel `-100` iff the (bos-overwritten) token there equals the pad
token id or its column index is below `prompt_length`; and the targets so
built are passed unchanged to the decoder's loss entry point.  The
hypothesis `0 ≤ prompt_length` reflects the spec's invariant that the
prompt's tokenization is nonempty (it begins with a bos token). -/
theorem forward_decoder_targets_spec (m : BlipCaption) (samples : Samples)
    (image_embeds : Embeds) (hp : 0 ≤ m.prompt_length) :
    (∀ i j x, at2? (m.decoderTargets samples) i j = some x →
      (x = -100 ↔
        at2? (m.decoderText samples).input_ids i j = some m.tokenizer.pad_token_id ∨
          (j : Int) < m.prompt_length)) ∧
    m.forward_decoder samples image_embeds =
      dictComp (m.text_decoder.forward_loss (m.decoderText samples) image_embeds
        (m.decoderTargets samples)).2 :=
  ⟨fun i j x hx => decoderTargets_at2? m samples hp i j x hx, rfl⟩

/-- C2: at construction, `prompt_length` is the length of the tokenizer's
id sequence for the configured prompt minus 1, and every later operation
leaves it unchanged. -/
theorem prompt_length_init_and_immutable (tok : Tokenizer)
    (enc : ImageT → Embeds) (dec : TextDecoder) (prompt : Option String)
    (mtl : Nat) :
    (BlipCaption.init tok enc dec prompt mtl).prompt_length =
      ((tok.tokenizeSingle prompt).length : Int) - 1 ∧
    (∀ (m : BlipCaption) (s : Samples) (e : Embeds) (uns : Bool)
       (nb maxl minl : Nat) (tp rp : Rat),
      (m.forward_encoderSt s).2.prompt_length = m.prompt_length ∧
      (m.forward_decoderSt s e).2.prompt_length = m.prompt_length ∧
      (m.forwardSt s).2.prompt_length = m.prompt_length ∧
      (m.generateSt s uns nb maxl minl tp rp).2.prompt_length = m.prompt_length) :=
  ⟨rfl, fun _ _ _ _ _ _ _ _ _ => ⟨rfl, rfl, rfl, rfl⟩⟩

/-- C5: in both `forward_decoder` (via `decoderText`) and `generate` (via
`genPromptBos`), after tokenization the first column of every sequence's
input ids holds the beginning-of-sequence id, whatever the tokenizer
produced there. -/
theorem first_column_is_bos (m : BlipCaption) (samples : Samples)
    (promptStrs : List String) :
    (∀ row ∈ (m.decoderText samples).input_ids, row ≠ [] →
      row.head? = some m.tokenizer.bos_token_id) ∧
    (∀ row ∈ (m.genPromptBos promptStrs).input_ids, row ≠ [] →
      row.head? = some m.tokenizer.bos_token_id) :=
  ⟨fun row hrow hne => bosOverwrite_head m.tokenizer.bos_token_id _ row hrow hne,
   fun row hrow hne => bosOverwrite_head m.tokenizer.bos_token_id _ row hrow hne⟩

/-- C6: `forward` is exactly `forward_decoder` applied to the result of
`forward_encoder`, with no further transformation. -/
theorem forward_is_composition (m : BlipCaption) (samples : Samples) :
    m.forward samples = m.forward_decoder samples (m.forward_encoder samples) :=
  rfl

/-- C7: `default_config_path` returns the fixed path for "base" and for
"large", and fails on every other model type. -/
theorem default_config_path_spec :
    default_config_path "base" = Except.ok "configs/models/blip_caption_base.yaml" ∧
    default_config_path "large" = Except.ok "configs/models/blip_caption_large.yaml" ∧
    ∀ t : String, t ≠ "base" → t ≠ "large" →
      default_config_path t = Except.error ("Unknown model type " ++ t) := by
  refine ⟨rfl, rfl, fun t h1 h2 => ?_⟩
  have e1 : (t == "base") = false := beq_eq_false_iff_ne.mpr h1
  have e2 : (t == "large") = false := beq_eq_false_iff_ne.mpr h2
  unfold default_config_path
  simp [List.lookup, e1, e2]

/-- C9: none of the four post-construction operations changes the model's
fields; each returns the state it was given. -/
theorem operations_leave_state_unchanged (m : BlipCaption) (s : Samples)
    (e : Embeds) (uns : Bool) (nb maxl minl : Nat) (tp rp : Rat) :
    (m.forward_encoderSt s).2 = m ∧
    (m.forward_decoderSt s e).2 = m ∧
    (m.forwardSt s).2 = m ∧
    (m.generateSt s uns nb maxl minl tp rp).2 = m :=
  ⟨rfl, rfl, rfl, rfl⟩

/-- C3: with a string prompt and external components honouring their batch
contracts (the encoder keeps the batch dimension; the decoder's generation
entry point returns one id sequence per batch element), `generate` on an
image batch of `N` elements returns exactly `N` caption strings. -/
theorem generate_batch_length (m : BlipCaption) (s : Samples) (p : String)
    (uns : Bool) (nb maxl minl : Nat) (tp rp : Rat)
    (hp : m.prompt = some p)
    (henc : (m.visual_encoder s.image).length = s.image.length)
    (hdec : ∀ (tpz : TokenizedText) (embeds : Embeds) (sep pad : Nat),
      (m.text_decoder.generate_from_encoder tpz embeds sep pad uns nb maxl minl
        tp rp).length = embeds.length) :
    ∃ cs, m.generate s uns nb maxl minl tp rp = Except.ok cs ∧
      cs.length = s.image.length := by
  refine ⟨_, generate_ok m s p uns nb maxl minl tp rp hp, ?_⟩
  rw [List.length_map, hdec]
  exact henc

/-- C4 (amended): with a string prompt `p`, each caption returned by
`generate` is exactly the decoded text of the corresponding generated id
sequence with its leading `len(p)` characters removed; the result is not
guaranteed to be free of `p` as a prefix (see the counterexample). -/
theorem generate_strips_prompt_length_chars (m : BlipCaption) (s : Samples)
    (p : String) (uns : Bool) (nb maxl minl : Nat) (tp rp : Rat)
    (hp : m.prompt = some p) :
    m.generate s uns nb maxl minl tp rp =
      Except.ok ((m.text_decoder.generate_from_encoder
          (m.genTokenizedPrompt (List.replicate (m.forward_encoder s).length p))
          (m.forward_encoder s) m.tokenizer.sep_token_id m.tokenizer.pad_token_id
          uns nb maxl minl tp rp).map
        (fun output => strDropChars (m.tokenizer.decode output) p.data.length)) :=
  generate_ok m s p uns nb maxl minl tp rp hp

/-- C8: with a string prompt `p`, whenever every decoded caption text is at
most `len(p)` characters long, the prefix-stripping slice yields the empty
string for each of them and `generate` still succeeds (there is no guard on
the slice). -/
theorem generate_short_decoded_text (m : BlipCaption) (s : Samples)
    (p : String) (uns : Bool) (nb maxl minl : Nat) (tp rp : Rat)
    (hp : m.prompt = some p)
    (hshort : ∀ output ∈ m.text_decoder.generate_from_encoder
        (m.genTokenizedPrompt (List.replicate (m.forward_encoder s).length p))
        (m.forward_encoder s) m.tokenizer.sep_token_id m.tokenizer.pad_token_id
        uns nb maxl minl tp rp,
      (m.tokenizer.decode output).data.length ≤ p.data.length) :
    m.generate s uns nb maxl minl tp rp =
      Except.ok ((m.text_decoder.generate_from_encoder
          (m.genTokenizedPrompt (List.replicate (m.forward_encoder s).length p))
          (m.forward_encoder s) m.tokenizer.sep_token_id m.tokenizer.pad_token_id
          uns nb maxl minl tp rp).map
        (fun _ => "")) := by
  rw [generate_ok m s p uns nb maxl minl tp rp hp]
  refine congrArg Except.ok (List.map_congr_left ?_)
  intro output hout
  unfold strDropChars
  rw [List.drop_eq_nil_of_le (hshort output hout)]

/-- C10: when the model's `prompt` is `None` and the image batch is
nonempty, `generate` raises: the batched tokenizer call on
`[None] * batch_size` requires strings (and `len(None)` would fail later
anyway), so `generate` succeeds only when the prompt is a string. -/
theorem generate_none_prompt_raises (m : BlipCaption) (s : Samples)
    (uns : Bool) (nb maxl minl : Nat) (tp rp : Rat)
    (hp : m.prompt = none) (hb : 0 < (m.visual_encoder s.image).length) :
    m.generate s uns nb maxl minl tp rp =
      Except.error "ValueError: text input must be of type str" := by
  obtain ⟨k, hk⟩ : ∃ k, (m.visual_encoder s.image).length = k + 1 :=
    ⟨(m.visual_encoder s.image).length - 1, (Nat.succ_pred_eq_of_pos hb).symm⟩
  unfold BlipCaption.generate BlipCaption.forward_encoder
  rw [hp]
  simp only [hk, List.replicate_succ, tokenizerStrCheck]
  rfl

/-! Concrete instances used by the witnesses and the counterexample. -/

/-- A small concrete tokenizer: every string tokenizes to three ids, the
padded batch form ends in the pad id `0`, and decoding always yields
`"abab"`. -/
def toyTokenizer : Tokenizer :=
  { tokenizeSingle := fun _ => [1, 7, 2]
    tokenizeBatchPadLongest := fun ss _ =>
      { input_ids := ss.map (fun _ => [1, 7, 0])
        attention_mask := ss.map (fun _ => [1, 1, 0]) }
    tokenizeBatchPlain := fun ss =>
      { input_ids := ss.map (fun _ => [1, 7, 2])
        attention_mask := ss.map (fun _ => [1, 1, 1]) }
    decode := fun _ => "abab"
    bos_token_id := 101
    pad_token_id := 0
    sep_token_id := 102 }

/-- A small concrete decoder: the loss entry reports the number of target
rows; generation yields one id sequence per batch element. -/
def toyDecoder : TextDecoder :=
  { forward_loss := fun _ _ targets => (0, [("loss", (targets.length : Int))])
    generate_from_encoder := fun _ embeds _ _ _ _ _ _ _ _ =>
      embeds.map (fun _ => [5, 6]) }

/-- Concrete model with prompt `"ab"`. -/
def toyModel : BlipCaption :=
  BlipCaption.init toyTokenizer (fun img => img) toyDecoder (some "ab") 40

/-- Concrete model with the longer prompt `"abcde"`. -/
def toyModelLong : BlipCaption :=
  BlipCaption.init toyTokenizer (fun img => img) toyDecoder (some "abcde") 40

/-- Concrete model with `prompt=None` (the constructor's default). -/
def toyModelNone : BlipCaption :=
  BlipCaption.init toyTokenizer (fun img => img) toyDecoder none 40

/-- A concrete two-element batch. -/
def toySamples : Samples :=
  { image := [[3], [4]], text_input := ["a cat", "a dog"] }

/-! Witnesses and counterexample. -/

/-- C1 witness: the targets theorem instantiated at the concrete model. -/
theorem forward_decoder_targets_spec_witness :
    0 ≤ toyModel.prompt_length ∧
    ((∀ i j x, at2? (toyModel.decoderTargets toySamples) i j = some x →
      (x = -100 ↔
        at2? (toyModel.decoderText toySamples).input_ids i j =
            some toyModel.tokenizer.pad_token_id ∨
          (j : Int) < toyModel.prompt_length)) ∧
    toyModel.forward_decoder toySamples [[9]] =
      dictComp (toyModel.text_decoder.forward_loss (toyModel.decoderText toySamples)
        [[9]] (toyModel.decoderTargets toySamples)).2) :=
  ⟨by decide, forward_decoder_targets_spec toyModel toySamples [[9]] (by decide)⟩

/-- C3 witness: the batch-length theorem instantiated at the concrete
model, whose decoder returns one sequence per batch element. -/
theorem generate_batch_length_witness :
    toyModel.prompt = some "ab" ∧
    (toyModel.visual_encoder toySamples.image).length = toySamples.image.length ∧
    (∀ (tpz : TokenizedText) (embeds : Embeds) (sep pad : Nat),
      (toyModel.text_decoder.generate_from_encoder tpz embeds sep pad
        false 3 30 10 1 1).length = embeds.length) ∧
    (∃ cs, toyModel.generate toySamples false 3 30 10 1 1 = Except.ok cs ∧
      cs.length = toySamples.image.length) :=
  ⟨rfl, rfl, fun _ embeds _ _ => List.length_map embeds _,
   generate_batch_length toyModel toySamples "ab" false 3 30 10 1 1 rfl rfl
     (fun _ embeds _ _ => List.length_map embeds _)⟩

/-- C4 counterexample: with prompt `"ab"` and a decoded text `"abab"`, the
returned caption is `"ab"`, which still has the prompt as a literal
prefix, refuting "the returned string never contains P as a literal
prefix". -/
theorem generate_prompt_prefix_counterexample :
    toyModel.prompt = some "ab" ∧
    toyModel.generate toySamples false 3 30 10 1 1 = Except.ok ["ab", "ab"] ∧
    "ab".data.isPrefixOf "ab".data = true :=
  ⟨rfl, by rfl, by decide⟩

/-- C4 witness: the amended stripping theorem instantiated at the concrete
model. -/
theorem generate_strips_prompt_length_chars_witness :
    toyModel.prompt = some "ab" ∧
    toyModel.generate toySamples false 3 30 10 1 1 =
      Except.ok ((toyModel.text_decoder.generate_from_encoder
          (toyModel.genTokenizedPrompt
            (List.replicate (toyModel.forward_encoder toySamples).length "ab"))
          (toyModel.forward_encoder toySamples) toyModel.tokenizer.sep_token_id
          toyModel.tokenizer.pad_token_id false 3 30 10 1 1).map
        (fun output => strDropChars (toyModel.tokenizer.decode output)
          "ab".data.length)) :=
  ⟨rfl, generate_strips_prompt_length_chars toyModel toySamples "ab"
    false 3 30 10 1 1 rfl⟩

/-- C5 witness: the bos-forcing theorem instantiated at concrete rows of
the concrete model (bos id `101`). -/
theorem first_column_is_bos_witness :
    ([101, 7, 0] ∈ (toyModel.decoderText toySamples).input_ids ∧
      ([101, 7, 0] : List Nat) ≠ [] ∧
      ([101, 7, 0] : List Nat).head? = some toyModel.tokenizer.bos_token_id) ∧
    ([101, 7, 2] ∈ (toyModel.genPromptBos ["ab", "ab"]).input_ids ∧
      ([101, 7, 2] : List Nat) ≠ [] ∧
      ([101, 7, 2] : List Nat).head? = some toyModel.tokenizer.bos_token_id) :=
  ⟨⟨by decide, by decide,
    (first_column_is_bos toyModel toySamples ["ab", "ab"]).1 _ (by decide) (by decide)⟩,
   ⟨by decide, by decide,
    (first_column_is_bos toyModel toySamples ["ab", "ab"]).2 _ (by decide) (by decide)⟩⟩

/-- C7 witness: the lookup theorem applied to the unknown type `"tiny"`. -/
theorem default_config_path_spec_witness :
    ("tiny" : String) ≠ "base" ∧ ("tiny" : String) ≠ "large" ∧
    default_config_path "tiny" = Except.error ("Unknown model type " ++ "tiny") :=
  ⟨by decide, by decide, default_config_path_spec.2.2 "tiny" (by decide) (by decide)⟩

/-- C8 witness: with prompt `"abcde"` every decoded text (`"abab"`, four
characters) is shorter than the prompt, and `generate` returns empty
strings without error. -/
theorem generate_short_decoded_text_witness :
    toyModelLong.prompt = some "abcde" ∧
    (∀ output ∈ toyModelLong.text_decoder.generate_from_encoder
        (toyModelLong.genTokenizedPrompt
          (List.replicate (toyModelLong.forward_encoder toySamples).length "abcde"))
        (toyModelLong.forward_encoder toySamples) toyModelLong.tokenizer.sep_token_id
        toyModelLong.tokenizer.pad_token_id false 3 30 10 1 1,
      (toyModelLong.tokenizer.decode output).data.length ≤ "abcde".data.length) ∧
    toyModelLong.generate toySamples false 3 30 10 1 1 =
      Except.ok ((toyModelLong.text_decoder.generate_from_encoder
          (toyModelLong.genTokenizedPrompt
            (List.replicate (toyModelLong.forward_encoder toySamples).length "abcde"))
          (toyModelLong.forward_encoder toySamples) toyModelLong.tokenizer.sep_token_id
          toyModelLong.tokenizer.pad_token_id false 3 30 10 1 1).map
        (fun _ => "")) :=
  ⟨rfl, by decide, generate_short_decoded_text toyModelLong toySamples "abcde"
    false 3 30 10 1 1 rfl (by decide)⟩

/-- C10 witness: the `None`-prompt theorem at the concrete model and a
nonempty batch. -/
theorem generate_none_prompt_raises_witness :
    toyModelNone.prompt = none ∧
    0 < (toyModelNone.visual_encoder toySamples.image).length ∧
    toyModelNone.generate toySamples false 3 30 10 1 1 =
      Except.error "ValueError: text input must be of type str" :=
  ⟨rfl, by decide,
   generate_none_prompt_raises toyModelNone toySamples false 3 30 10 1 1 rfl (by decide)⟩

end BlipCaptionModel
